import Mathlib

/-!
Verification development for the coffee-shop revision analytics app
(`src/app.py`).  The per-row derivation pipeline is embedded shallowly:
pandas/numpy float cells become `Option ℚ` (a missing cell / NaN is
`none`), dates become a `Date` record with proleptic-Gregorian day
numbers, and the comparison helpers reproduce the IEEE rule that every
comparison against NaN is false.
-/

namespace Revision

/-- The three status strings the app produces:
`ok` = "🟢 OK", `warn` = "🟡 Увага", `critical` = "🔴 Критично". -/
inductive Status where
  | ok : Status
  | warn : Status
  | critical : Status
deriving DecidableEq, Repr

/-- A calendar date (proleptic Gregorian), as produced by
`pd.to_datetime`. -/
structure Date where
  year : Int
  month : Nat
  day : Nat
deriving DecidableEq, Repr

/-- Gregorian leap-year test. -/
def isLeap (y : Int) : Bool :=
  (y % 4 == 0 && y % 100 != 0) || y % 400 == 0

/-- Number of days in a month of a given year. -/
def daysInMonth (y : Int) (m : Nat) : Nat :=
  if m = 2 then (if isLeap y then 29 else 28)
  else if m = 4 ∨ m = 6 ∨ m = 9 ∨ m = 11 then 30
  else 31

/-- Day number of a date counted from 1970-01-01 (the civil-from-days
algorithm with floor division); differences of these numbers are what
`(end - start).days` yields in pandas for whole-day timestamps. -/
def daysFromCivil (d : Date) : Int :=
  let y : Int := if d.month ≤ 2 then d.year - 1 else d.year
  let era : Int := Int.fdiv y 400
  let yoe : Int := y - era * 400
  let mp : Int := Int.ofNat ((d.month + 9) % 12)
  let doy : Int := Int.fdiv (153 * mp + 2) 5 + Int.ofNat d.day - 1
  let doe : Int := yoe * 365 + Int.fdiv yoe 4 - Int.fdiv yoe 100 + doy
  era * 146097 + doe - 719468

/-- Python `str.split(sep)` semantics on character lists: splits on every
occurrence of `c`; the empty input yields one empty part. -/
def splitOnChar (c : Char) : List Char → List (List Char)
  | [] => [[]]
  | ch :: rest =>
    let r := splitOnChar c rest
    if ch = c then [] :: r
    else
      match r with
      | [] => [[ch]]
      | p :: ps => (ch :: p) :: ps

/-- Reads a nonempty all-digit character list as a natural number. -/
def digitsToNat (cs : List Char) : Option Nat :=
  if !cs.isEmpty && cs.all (fun c => c.isDigit) then
    some (cs.foldl (fun n c => 10 * n + (c.toNat - 48)) 0)
  else none

/-- Models `pd.to_datetime(s, dayfirst=True)` (raising on failure)
restricted to dotted `day.month.year` strings — the shape the period
halves take after the app's comma-to-period normalization. Returns
`none` exactly when the library call would raise. -/
def parseDateDayFirst (cs : List Char) : Option Date :=
  match splitOnChar '.' cs with
  | [d, m, y] =>
    match digitsToNat d, digitsToNat m, digitsToNat y with
    | some dd, some mm, some yy =>
      if 1 ≤ mm ∧ mm ≤ 12 ∧ 1 ≤ dd ∧ dd ≤ daysInMonth (Int.ofNat yy) mm then
        some ⟨Int.ofNat yy, mm, dd⟩
      else none
    | _, _, _ => none
  | _ => none

/-- The app's `val.replace(",", ".")` on one period half. -/
def normalizeCommas (cs : List Char) : List Char :=
  cs.map (fun c => if c = ',' then '.' else c)

/-- Combines the two parsed period halves: only when both dates parsed
does the triple `(start, end, (end - start).days)` come back; a failure
of either half is caught by the bare `except` and yields the all-missing
triple. -/
def combineDates (p q : Option Date) :
    Option Date × Option Date × Option Int :=
  match p, q with
  | some ds, some de =>
    (some ds, some de, some (daysFromCivil de - daysFromCivil ds))
  | _, _ => (none, none, none)

/-- `parse_revision_period` from `src/app.py`: missing input gives the
all-missing triple; otherwise split on `-`, require exactly two parts
(the Python tuple unpacking raises otherwise, caught by the bare
`except`), normalize commas, parse both halves day-first, and combine
them; any failure is caught and gives the all-missing triple. -/
def parse_revision_period (val : Option String) :
    Option Date × Option Date × Option Int :=
  match val with
  | none => (none, none, none)
  | some s =>
    match splitOnChar '-' s.toList with
    | [a, b] =>
      combineDates (parseDateDayFirst (normalizeCommas a))
        (parseDateDayFirst (normalizeCommas b))
    | _ => (none, none, none)

/-- Python float comparison `x < c` where `x` may be NaN/missing:
a comparison against a missing value is false. -/
def pyLt (x : Option ℚ) (c : ℚ) : Bool :=
  match x with
  | some v => decide (v < c)
  | none => false

/-- Python float comparison `x > c` with missing compared as false. -/
def pyGt (x : Option ℚ) (c : ℚ) : Bool :=
  match x with
  | some v => decide (c < v)
  | none => false

/-- Python float equality `x == c` with missing compared as false
(`NaN == 0` is false). -/
def pyEq (x : Option ℚ) (c : ℚ) : Bool :=
  match x with
  | some v => decide (v = c)
  | none => false

/-- `abs` lifted over a possibly missing float (`abs(NaN)` is NaN). -/
def pyAbs (x : Option ℚ) : Option ℚ :=
  x.map (fun v => |v|)

/-- One table row after `load_data`: the coerced raw columns plus the
three period columns it appends. -/
structure Row where
  date : Option Date
  store : Option String
  period_raw : Option String
  period_start : Option Date
  period_end : Option Date
  period_days : Option Int
  stock_result : Option ℚ
  revenue : Option ℚ
  cups_result : Option ℚ
  actual_portion_grams : Option ℚ
  spill_count : Option ℚ
  total_result : Option ℚ
  reviewer_comment : Option String
deriving DecidableEq, Repr

/-- A row after the derivation block has appended the columns
"Відхилення грамажу" (`gram_deviation`) and "Проблема лічильника"
(`counter_issue`, true iff the cell holds the warning string). -/
structure DRow extends Row where
  gram_deviation : Option ℚ
  counter_issue : Bool
deriving DecidableEq, Repr

/-- The derivation block of `src/app.py` (lines 120-129):
`gram_deviation = actual_portion_grams - target_gram` (missing input
propagates as missing) and
`counter_issue = (spill_count is missing or spill_count == 0) and
revenue > 0`. -/
def derive (target : ℚ) (r : Row) : DRow :=
  { toRow := r
  , gram_deviation := r.actual_portion_grams.map (fun g => g - target)
  , counter_issue :=
      (r.spill_count.isNone || pyEq r.spill_count 0) && pyGt r.revenue 0 }

/-- `calc_status` from `src/app.py` (lines 131-138): first match wins —
negative total gives CRITICAL, absolute gram deviation above 0.5 gives
CRITICAL, above 0.3 gives WARN, otherwise OK. -/
def calc_status (row : DRow) : Status :=
  if pyLt row.total_result 0 then Status.critical
  else if pyGt (pyAbs row.gram_deviation) (1 / 2) then Status.critical
  else if pyGt (pyAbs row.gram_deviation) (3 / 10) then Status.warn
  else Status.ok

/-- The classifier exactly as §4.4 of the spec words it: a pure function
of the pair (total_result, gram_deviation), evaluated as ordered guards
where the first match wins — `total_result < 0` gives CRITICAL, then
`|gram_deviation|` above the upper threshold 0.5 gives CRITICAL, then
above the lower threshold 0.3 gives WARN, otherwise OK. -/
def spec_status (total gramDev : Option ℚ) : Status :=
  if pyLt total 0 then Status.critical
  else if pyGt (pyAbs gramDev) (1 / 2) then Status.critical
  else if pyGt (pyAbs gramDev) (3 / 10) then Status.warn
  else Status.ok

/-- The ten entries of `REQUIRED_COLUMNS` in `src/app.py`. -/
def REQUIRED_COLUMNS : List String :=
  [ "Дата"
  , "Міжревізійний період"
  , "ТТ Місто"
  , "Залишок по товару (фактичний),грн"
  , "Виручка за період"
  , "Результат по чашках"
  , "Фактична кількість кави на порцію"
  , "Кількість проливів"
  , "Результат ВСЬОГО"
  , "Коментар ревізора"
  ]

/-- Parses an optionally signed decimal digit string as a rational;
models `pd.to_numeric(x, errors="coerce")` on a text cell, which yields
NaN (here `none`) whenever conversion fails. -/
def parseDecimal (cs : List Char) : Option ℚ :=
  let unsigned : List Char → Option ℚ := fun ds =>
    match splitOnChar '.' ds with
    | [w] => (digitsToNat w).map (fun n => (n : ℚ))
    | [w, f] =>
      match digitsToNat w, digitsToNat f with
      | some n, some m => some ((n : ℚ) + (m : ℚ) / ((10 : ℚ) ^ f.length))
      | _, _ => none
    | _ => none
  match cs with
  | '-' :: rest => (unsigned rest).map (fun q => -q)
  | _ => unsigned cs

/-- `pd.to_numeric(cell, errors="coerce")`: a missing or unparseable
cell becomes missing, never an error. -/
def to_numeric (cell : Option String) : Option ℚ :=
  cell.bind (fun s => parseDecimal s.toList)

/-- A raw uploaded table: its header names and, per data row, an
association list from column name to the (possibly empty) text cell. -/
structure RawTable where
  columns : List String
  rows : List (List (String × Option String))

/-- Cell lookup by column name in one raw row. -/
def getCell (cells : List (String × Option String)) (c : String) :
    Option String :=
  match cells.find? (fun p => p.1 == c) with
  | some p => p.2
  | none => none

def colDate : String := "Дата"
def colPeriod : String := "Міжревізійний період"
def colStore : String := "ТТ Місто"
def colStock : String := "Залишок по товару (фактичний),грн"
def colRevenue : String := "Виручка за період"
def colCups : String := "Результат по чашках"
def colActual : String := "Фактична кількість кави на порцію"
def colSpill : String := "Кількість проливів"
def colTotal : String := "Результат ВСЬОГО"
def colComment : String := "Коментар ревізора"

/-- The coercion stage of `load_data`: numeric columns through
`pd.to_numeric(errors="coerce")`, the date column through
`pd.to_datetime(dayfirst=True, errors="coerce")`, and the three period
columns from `parse_revision_period`; every failure degrades to
missing. -/
def coerceRow (cells : List (String × Option String)) : Row :=
  let p := parse_revision_period (getCell cells colPeriod)
  { date := (getCell cells colDate).bind (fun s => parseDateDayFirst s.toList)
  , store := getCell cells colStore
  , period_raw := getCell cells colPeriod
  , period_start := p.1
  , period_end := p.2.1
  , period_days := p.2.2
  , stock_result := to_numeric (getCell cells colStock)
  , revenue := to_numeric (getCell cells colRevenue)
  , cups_result := to_numeric (getCell cells colCups)
  , actual_portion_grams := to_numeric (getCell cells colActual)
  , spill_count := to_numeric (getCell cells colSpill)
  , total_result := to_numeric (getCell cells colTotal)
  , reviewer_comment := getCell cells colComment }

/-- `load_data` from `src/app.py` (lines 55-73): first the required
column names are checked; if any are absent the run aborts
(`st.error` then `st.stop()`) carrying exactly the missing names and no
coerced data; only otherwise does coercion run, and it is total. -/
def load_data (t : RawTable) : Except (List String) (List Row) :=
  if (REQUIRED_COLUMNS.filter (fun c => !(t.columns.contains c))).isEmpty then
    Except.ok (t.rows.map coerceRow)
  else
    Except.error (REQUIRED_COLUMNS.filter (fun c => !(t.columns.contains c)))

/-- The derived column "Рік": the year of the date, missing when the
date is missing (`df["Дата"].dt.year`). -/
def yearCol (r : Row) : Option Int :=
  r.date.map (fun d => d.year)

/-- The filter-domain years: the observed years with missing values
dropped (`df["Рік"].dropna().unique()`); the default selection is this
whole list. -/
def observedYears (rows : List Row) : List Int :=
  (rows.filterMap yearCol).dedup

/-- The year/store filter of `src/app.py` (lines 104-107): keep the rows
whose year is a member of the selected years and whose store is a member
of the selected stores; a missing year is never a member of the selected
set (the selection is drawn from `dropna()`d years). -/
def filterTable (rows : List Row) (selYears : List Int)
    (selStores : List (Option String)) : List Row :=
  rows.filter (fun r =>
    (match yearCol r with
     | some y => selYears.contains y
     | none => false) && selStores.contains r.store)

/-- A row with every cell missing, for building concrete test rows. -/
def blankRow : Row :=
  { date := none, store := none, period_raw := none, period_start := none
  , period_end := none, period_days := none, stock_result := none
  , revenue := none, cups_result := none, actual_portion_grams := none
  , spill_count := none, total_result := none, reviewer_comment := none }

/-- A row with a losing total, nonzero portion data and an extreme gram
deviation: exercises the hard override. -/
def rowLoss : DRow :=
  { toRow :=
      { blankRow with
          total_result := some (-5),
          revenue := some 100,
          spill_count := some 3,
          actual_portion_grams := some 20 },
    gram_deviation := some 11,
    counter_issue := false }

/-- Strict-variant example row: zero spills but revenue 50. -/
def rowC6a : Row :=
  { blankRow with spill_count := some 0, revenue := some 50 }

/-- Strict-variant example row: zero spills and zero revenue. -/
def rowC6b : Row :=
  { blankRow with spill_count := some 0, revenue := some 0 }

/-- Two derived rows agreeing on total and deviation but differing in
spills, revenue and the counter flag. -/
def rowC7a : DRow :=
  { toRow :=
      { blankRow with
          total_result := some 5,
          spill_count := some 0,
          revenue := some 50 },
    gram_deviation := some 0,
    counter_issue := true }

def rowC7b : DRow :=
  { toRow :=
      { blankRow with
          total_result := some 5,
          spill_count := some 4,
          revenue := some 0 },
    gram_deviation := some 0,
    counter_issue := false }

/-- Spec §8's example row: actual portion 11.5 g (= 23/2), nonnegative
total (0). -/
def rowC9 : Row :=
  { blankRow with
      actual_portion_grams := some (23 / 2),
      total_result := some 0 }

/-- A row with missing actual portion grams and a losing total. -/
def rowC5 : Row :=
  { blankRow with total_result := some (-7) }

/-- C1: for every row whose total_result is present and negative, the
derived status is CRITICAL, regardless of gram_deviation and every other
field — the first guard of `calc_status` fires before any other is
looked at. -/
theorem c1_negative_total_forces_critical (row : DRow) (t : ℚ)
    (ht : row.total_result = some t) (hneg : t < 0) :
    calc_status row = Status.critical := by
  unfold calc_status
  have : pyLt row.total_result 0 = true := by
    rw [ht]; simpa [pyLt] using hneg
  rw [this]
  rfl

theorem c1_witness :
    rowLoss.total_result = some (-5) ∧ (-5 : ℚ) < 0 ∧
    calc_status rowLoss = Status.critical :=
  ⟨rfl, by decide,
    c1_negative_total_forces_critical rowLoss (-5) rfl (by decide)⟩

/-- C2: `calc_status` is a pure function of the pair
(total_result, gram_deviation) and coincides with the spec's ordered
guard cascade (thresholds 0.5 and 0.3, first match wins) on every
derived row. -/
theorem c2_classifier_matches_spec_guards (row : DRow) :
    calc_status row = spec_status row.total_result row.gram_deviation :=
  rfl

/-- C5: when actual_portion_grams is missing, gram_deviation is missing
(never zero) and the status degenerates to a function of total_result
alone — CRITICAL when negative, otherwise OK; the missing deviation
never produces WARN or CRITICAL through the gram guards. -/
theorem c5_missing_grams_status_from_total (target : ℚ) (r : Row)
    (h : r.actual_portion_grams = none) :
    (derive target r).gram_deviation = none ∧
    calc_status (derive target r) =
      (match r.total_result with
       | some t => if t < 0 then Status.critical else Status.ok
       | none => Status.ok) := by
  refine ⟨by simp [derive, h], ?_⟩
  unfold calc_status
  have hdev : (derive target r).gram_deviation = none := by simp [derive, h]
  rw [hdev]
  have htot : (derive target r).total_result = r.total_result := rfl
  rw [htot]
  cases hr : r.total_result with
  | none => simp [pyLt, pyGt, pyAbs]
  | some t =>
    by_cases ht : t < 0
    · simp [pyLt, pyGt, pyAbs, ht]
    · simp [pyLt, pyGt, pyAbs, ht]

theorem c5_witness :
    rowC5.actual_portion_grams = none ∧
    (derive 9 rowC5).gram_deviation = none ∧
    calc_status (derive 9 rowC5) = Status.critical := by
  have h := c5_missing_grams_status_from_total 9 rowC5 rfl
  exact ⟨rfl, h.1, by rw [h.2]; decide⟩

/-- C6: counter_issue is flagged exactly when the spill count is missing
or zero and the revenue is present and positive; in particular the row
with spill 0 / revenue 50 is flagged and the row with spill 0 /
revenue 0 is not. -/
theorem c6_counter_issue_iff :
    (∀ (target : ℚ) (r : Row),
      (derive target r).counter_issue = true ↔
        ((r.spill_count = none ∨ r.spill_count = some 0) ∧
         ∃ v, r.revenue = some v ∧ 0 < v)) ∧
    (derive 9 rowC6a).counter_issue = true ∧
    (derive 9 rowC6b).counter_issue = false := by
  refine ⟨fun target r => ?_, by decide, by decide⟩
  simp only [derive, Bool.and_eq_true, Bool.or_eq_true]
  constructor
  · rintro ⟨hspill, hrev⟩
    refine ⟨?_, ?_⟩
    · rcases hspill with hs | hs
      · left; simpa [Option.isNone_iff_eq_none] using hs
      · right
        cases h : r.spill_count with
        | none => rw [h] at hs; simp [pyEq] at hs
        | some v =>
          rw [h] at hs
          simp only [pyEq, decide_eq_true_eq] at hs
          rw [hs]
    · cases h : r.revenue with
      | none => rw [h] at hrev; simp [pyGt] at hrev
      | some v =>
        rw [h] at hrev
        simp only [pyGt, decide_eq_true_eq] at hrev
        exact ⟨v, rfl, hrev⟩
  · rintro ⟨hspill, v, hv, hvpos⟩
    refine ⟨?_, ?_⟩
    · rcases hspill with hs | hs
      · left; simp [hs]
      · right; simp [pyEq, hs]
    · simp [pyGt, hv, hvpos]

/-- C7: the classifier never reads spill_count, revenue or
counter_issue — two derived rows agreeing on total_result and
gram_deviation always get the same status. -/
theorem c7_status_independent_of_counter (r1 r2 : DRow)
    (ht : r1.total_result = r2.total_result)
    (hd : r1.gram_deviation = r2.gram_deviation) :
    calc_status r1 = calc_status r2 := by
  unfold calc_status
  rw [ht, hd]

theorem c7_witness :
    rowC7a.total_result = rowC7b.total_result ∧
    rowC7a.gram_deviation = rowC7b.gram_deviation ∧
    rowC7a.counter_issue ≠ rowC7b.counter_issue ∧
    rowC7a.spill_count ≠ rowC7b.spill_count ∧
    calc_status rowC7a = calc_status rowC7b :=
  ⟨rfl, rfl, by decide, by decide,
    c7_status_independent_of_counter rowC7a rowC7b rfl rfl⟩

/-- C9 fails on this variant: with target 10.0 and actual 11.5 the
deviation is 1.5, which exceeds this variant's upper threshold 0.5, so
the row with total_result = 0 (≥ 0) is classified CRITICAL, not WARN as
the claim states. -/
theorem c9_counterexample :
    rowC9.actual_portion_grams = some (23 / 2) ∧
    rowC9.total_result = some 0 ∧ (0 : ℚ) ≤ 0 ∧
    (derive 10 rowC9).gram_deviation = some (3 / 2) ∧
    calc_status (derive 10 rowC9) = Status.critical ∧
    Status.critical ≠ Status.warn := by
  have hdev : (derive 10 rowC9).gram_deviation = some (3 / 2) := by
    show (some ((23 : ℚ) / 2 - 10) : Option ℚ) = some (3 / 2)
    norm_num
  have h1 : pyLt (derive 10 rowC9).total_result 0 = false := by
    show pyLt (some 0) 0 = false
    simp [pyLt]
  have h2 : pyGt (pyAbs (some ((3 : ℚ) / 2))) (1 / 2) = true := by
    have habs0 : |(3 : ℚ) / 2| = 3 / 2 := abs_of_pos (by norm_num)
    simp [pyAbs, pyGt, habs0]
    norm_num
  refine ⟨rfl, rfl, le_refl 0, hdev, ?_, by decide⟩
  unfold calc_status
  rw [hdev, h1, h2]
  simp

/-- C9 amended: with target 10.0 and actual 11.5 the gram deviation is
1.5 and, |1.5| exceeding the upper threshold 0.5 of this variant, the
status is CRITICAL whenever total_result ≥ 0 (indeed for every
total_result). -/
theorem c9_amended_deviation_is_critical (r : Row)
    (h : r.actual_portion_grams = some (23 / 2)) :
    (derive 10 r).gram_deviation = some (3 / 2) ∧
    calc_status (derive 10 r) = Status.critical := by
  have hdev : (derive 10 r).gram_deviation = some (3 / 2) := by
    simp only [derive, h, Option.map_some]
    norm_num
  refine ⟨hdev, ?_⟩
  unfold calc_status
  rw [hdev]
  have habs : pyGt (pyAbs (some ((3 : ℚ) / 2))) (1 / 2) = true := by
    have habs0 : |(3 : ℚ) / 2| = 3 / 2 := abs_of_pos (by norm_num)
    simp [pyAbs, pyGt, habs0]
    norm_num
  rw [habs]
  by_cases htot : pyLt (derive 10 r).total_result 0 = true
  · rw [htot]; simp
  · rw [Bool.not_eq_true] at htot
    rw [htot]
    simp

theorem c9_amended_witness :
    rowC9.actual_portion_grams = some (23 / 2) ∧
    (derive 10 rowC9).gram_deviation = some (3 / 2) ∧
    calc_status (derive 10 rowC9) = Status.critical := by
  have h := c9_amended_deviation_is_critical rowC9 rfl
  exact ⟨rfl, h.1, h.2⟩

def strNotADate : String := "not-a-date"

def periodExample : String := "01,02,2024-15,02,2024"

def periodExampleRev : String := "15,02,2024-01,02,2024"

/-- A dated row for exercising the year/store filter. -/
def rowDated : Row :=
  { blankRow with date := some ⟨2024, 2, 1⟩ }

/-- Unfolding equation for `parse_revision_period` on a present cell. -/
theorem parse_revision_period_some (s : String) :
    parse_revision_period (some s) =
      (match splitOnChar '-' s.toList with
       | [a, b] =>
         combineDates (parseDateDayFirst (normalizeCommas a))
           (parseDateDayFirst (normalizeCommas b))
       | _ => (none, none, none)) := rfl

/-- A missing first half combines to the all-missing triple. -/
theorem combineDates_none_left (q : Option Date) :
    combineDates none q = (none, none, none) := by
  cases q <;> rfl

/-- A missing second half combines to the all-missing triple. -/
theorem combineDates_none_right (p : Option Date) :
    combineDates p none = (none, none, none) := by
  cases p <;> rfl

/-- C3: whenever the period cell is missing, does not split on `-` into
exactly two parts, or either half fails day-first date parsing,
`parse_revision_period` returns the fully missing triple — it never
raises (it is a total function) and never partially populates. -/
theorem c3_parse_failure_gives_all_missing (val : Option String)
    (h : val = none ∨ ∃ s, val = some s ∧
      ((splitOnChar '-' s.toList).length ≠ 2 ∨
       ∃ a b, splitOnChar '-' s.toList = [a, b] ∧
         (parseDateDayFirst (normalizeCommas a) = none ∨
          parseDateDayFirst (normalizeCommas b) = none))) :
    parse_revision_period val = (none, none, none) := by
  rcases h with rfl | ⟨s, rfl, h⟩
  · rfl
  · rw [parse_revision_period_some]
    rcases h with hlen | ⟨a, b, hab, hfail⟩
    · cases hsp : splitOnChar '-' s.toList with
      | nil => rfl
      | cons x xs =>
        cases xs with
        | nil => rfl
        | cons y ys =>
          cases ys with
          | nil => exact absurd (by rw [hsp]; rfl : _ = 2) hlen
          | cons z zs => rfl
    · rw [hab]
      show combineDates (parseDateDayFirst (normalizeCommas a))
        (parseDateDayFirst (normalizeCommas b)) = (none, none, none)
      rcases hfail with hf | hf
      · rw [hf]
        exact combineDates_none_left _
      · rw [hf]
        exact combineDates_none_right _

theorem c3_witness :
    (splitOnChar '-' strNotADate.toList).length = 3 ∧
    parse_revision_period (some strNotADate) = (none, none, none) :=
  ⟨by decide, c3_parse_failure_gives_all_missing (some strNotADate)
    (Or.inr ⟨strNotADate, rfl, Or.inl (by decide)⟩)⟩

/-- C4: `parse_revision_period` normalizes commas to periods before
day-first parsing — "01,02,2024-15,02,2024" yields start 2024-02-01,
end 2024-02-15 and 14 whole days — and passes a negative day count
through unclamped when the end precedes the start. -/
theorem c4_parse_period_comma_normalization :
    parse_revision_period (some periodExample) =
      (some ⟨2024, 2, 1⟩, some ⟨2024, 2, 15⟩, some 14) ∧
    parse_revision_period (some periodExampleRev) =
      (some ⟨2024, 2, 15⟩, some ⟨2024, 2, 1⟩, some (-14)) :=
  ⟨by decide, by decide⟩

/-- C8: `REQUIRED_COLUMNS` has exactly ten entries; when any required
name is absent from the header the load aborts with an error naming
exactly the absent required names and carrying no coerced data, and when
all ten are present it returns the coerced rows — the coercion is a
total function, so no cell can raise. -/
theorem c8_required_columns_gate :
    REQUIRED_COLUMNS.length = 10 ∧
    ∀ t : RawTable,
      ((∃ c ∈ REQUIRED_COLUMNS, ¬ t.columns.contains c = true) →
        load_data t =
          Except.error
            (REQUIRED_COLUMNS.filter (fun c => !(t.columns.contains c)))) ∧
      ((∀ c ∈ REQUIRED_COLUMNS, t.columns.contains c = true) →
        load_data t = Except.ok (t.rows.map coerceRow)) := by
  refine ⟨rfl, fun t => ?_⟩
  have key : REQUIRED_COLUMNS.filter (fun c => !(t.columns.contains c)) = [] ↔
      ∀ c ∈ REQUIRED_COLUMNS, t.columns.contains c = true := by
    rw [List.filter_eq_nil_iff]
    constructor
    · intro hf c hc
      have := hf c hc
      simpa using this
    · intro hall c hc
      simpa using hall c hc
  constructor
  · rintro ⟨c, hc, hnc⟩
    have hne : (REQUIRED_COLUMNS.filter
        (fun x => !(t.columns.contains x))).isEmpty = false := by
      cases h0 : (REQUIRED_COLUMNS.filter
          (fun x => !(t.columns.contains x))).isEmpty with
      | false => rfl
      | true =>
        exfalso
        rw [List.isEmpty_iff] at h0
        exact hnc (key.mp h0 c hc)
    unfold load_data
    rw [hne]
    rfl
  · intro hall
    have hnil : REQUIRED_COLUMNS.filter (fun x => !(t.columns.contains x)) = [] :=
      key.mpr hall
    unfold load_data
    rw [hnil]
    rfl

/-- C10: a row whose date failed to parse has a missing derived year, a
missing year is never a member of the selected-years list (the selection
domain is the dropna-ed observed years), so the row is excluded from the
filtered table — and hence every derived row downstream of the filter
has a present date. -/
theorem c10_missing_date_never_selected (target : ℚ) (rows : List Row)
    (selYears : List Int) (selStores : List (Option String)) (r : Row)
    (h : r.date = none) :
    r ∉ filterTable rows selYears selStores ∧
    ∀ d ∈ (filterTable rows selYears selStores).map (derive target),
      d.date ≠ none := by
  constructor
  · intro hmem
    rw [filterTable, List.mem_filter] at hmem
    have hpred := hmem.2
    simp [yearCol, h] at hpred
  · intro d hd
    rw [List.mem_map] at hd
    obtain ⟨x, hx, rfl⟩ := hd
    rw [filterTable, List.mem_filter] at hx
    have hpred := hx.2
    intro hdate
    have hx0 : x.date = none := hdate
    simp [yearCol, hx0] at hpred

theorem c10_witness :
    blankRow.date = none ∧
    (blankRow ∉ filterTable [rowDated, blankRow]
        (observedYears [rowDated, blankRow]) [none] ∧
      ∀ d ∈ (filterTable [rowDated, blankRow]
          (observedYears [rowDated, blankRow]) [none]).map (derive 9),
        d.date ≠ none) :=
  ⟨rfl, c10_missing_date_never_selected 9 [rowDated, blankRow]
    (observedYears [rowDated, blankRow]) [none] blankRow rfl⟩

end Revision
